import Mathlib

/-!
# Verification of `omniclone.py`

A shallow embedding of the run path of `src/omniclone.py`: the lock
(`acquire_lock` / `release_lock`), the connectivity gate (`check_internet`),
the cascading filter resolver (`get_filter_flags`), the subprocess supervisor
(`run_subprocess_with_logging`), the sync executor (`run_rclone`) and the
orchestration loop of `main`.

External effects (filesystem existence, path canonicalization, the child
process's behavior, lock-directory removal failures) are supplied by an
`Env` record; the embedded functions emit an ordered `Event` trace that
records log calls, subprocess launches with their full argument vector,
child terminate/kill actions, lock operations and the process exit.
-/

namespace Omniclone

/-- One task entry of `config.json`: `{src, dst, extra_flags?, disabled?}`.
`extra_flags` defaults to `[]` and `disabled` to `false` in the source
(`cfg.get("extra_flags", [])`, `cfg.get("disabled", False)`); here they are
explicit fields holding the defaulted values. -/
structure TaskCfg where
  src : String
  dst : String
  extra_flags : List String
  disabled : Bool
deriving Repr, DecidableEq

/-- The contents of `flags.json`: ordered flag sequences keyed by
`base`, `bisync`, `backup`, `terminal`, `systemd`. The run path of
`src/omniclone.py` reads only the first three keys. -/
structure FlagsData where
  base : List String
  bisync : List String
  backup : List String
  terminal : List String
  systemd : List String
deriving Repr, DecidableEq

/-- `FLAGS_BISYNC = FLAGS_DATA["base"] + FLAGS_DATA["bisync"]` (line 107). -/
def FLAGS_BISYNC (fd : FlagsData) : List String := fd.base ++ fd.bisync

/-- `FLAGS_BACKUP = FLAGS_DATA["base"] + FLAGS_DATA["backup"]` (line 108). -/
def FLAGS_BACKUP (fd : FlagsData) : List String := fd.base ++ fd.backup

/-- How the child process launched by `run_subprocess_with_logging` behaves:
it either streams some output lines and exits with a code, or a
`KeyboardInterrupt` arrives after some lines have been streamed (the flag
records whether the child has exited by the time the `finally` block polls
it after `terminate()` was requested). -/
inductive ChildOutcome where
  | completes (lines : List String) (code : Int)
  | interrupt (linesBefore : List String) (exitedAfterTerminate : Bool)
deriving Repr, DecidableEq

/-- One observable step of the embedded program. -/
inductive Event where
  | logInfo (msg : String)
  | logWarning (msg : String)
  | logError (msg : String)
  | lockAcquireAttempt (success : Bool)
  | gateCheck (ok : Bool)
  | rcloneCall (mode task : String)
  | subprocStart (argv : List String)
  | childTerminate
  | childKill
  | lockReleaseCall
  | exited (code : Int)
deriving Repr, DecidableEq

/-- The external world a run interacts with. -/
structure Env where
  /-- `SCRIPT_DIR`, as a string path. -/
  scriptDir : String
  /-- `LOCK_DIR`, as a string path. -/
  lockDir : String
  /-- Filesystem existence, consulted by `get_filter_flags`. -/
  fileExists : String → Bool
  /-- Whether `LOCK_DIR` already exists when `acquire_lock` runs `mkdir`. -/
  lockExists : Bool
  /-- The result of the `ping` probe in `check_internet`. -/
  internet : Bool
  /-- `Path(s).expanduser().resolve()`: home expansion plus absolute
  canonicalization, supplied by the OS. -/
  resolvePath : String → String
  /-- The child-process behavior for the task at (mode, task name). -/
  childOutcome : String → String → ChildOutcome
  /-- Whether `LOCK_DIR.rmdir()` raises inside `release_lock`. -/
  lockRemoveFails : Bool

/-- The global mode filter file path: `SCRIPT_DIR / f"filters.{mode}.txt"`. -/
def global_filter (env : Env) (mode : String) : String :=
  env.scriptDir ++ "/filters." ++ mode ++ ".txt"

/-- The task-specific filter file path:
`SCRIPT_DIR / f"filters.{mode}.{task}.txt"`. -/
def task_filter (env : Env) (mode task : String) : String :=
  env.scriptDir ++ "/filters." ++ mode ++ "." ++ task ++ ".txt"

/-- `get_filter_flags(mode, task)` (lines 127-145): appends
`["--filter-from", global]` when the global filter file exists, then
`["--filter-from", specific]` when the task-specific one exists. -/
def get_filter_flags (env : Env) (mode task : String) : List String :=
  let filters : List String := []
  let filters :=
    if env.fileExists (global_filter env mode) then
      filters ++ ["--filter-from", global_filter env mode]
    else filters
  let filters :=
    if env.fileExists (task_filter env mode task) then
      filters ++ ["--filter-from", task_filter env mode task]
    else filters
  filters

/-- `acquire_lock()` (lines 148-157): `mkdir(exist_ok=False)` succeeds iff
the directory does not already exist; on `FileExistsError` a warning naming
the lock path is emitted and `False` is returned. -/
def acquire_lock (env : Env) : Bool × List Event :=
  if env.lockExists then
    (false,
     [Event.lockAcquireAttempt false,
      Event.logWarning
        ("Lock directory exists. Another instance may be running. If not, delete "
          ++ env.lockDir)])
  else (true, [Event.lockAcquireAttempt true])

/-- `release_lock()` (lines 159-164): removes the lock directory if present;
any removal error is caught and logged as a warning, never raised. Takes the
current lock-directory presence and returns the presence afterwards. -/
def release_lock (lockPresent removeFails : Bool) : Bool × List Event :=
  if lockPresent then
    if removeFails then
      (true,
       [Event.lockReleaseCall,
        Event.logWarning "Could not release lock: rmdir failed"])
    else (false, [Event.lockReleaseCall])
  else (false, [Event.lockReleaseCall])

/-- `check_internet()` (lines 112-124): one ping probe; the result is
supplied by the environment. -/
def check_internet (env : Env) : Bool × List Event :=
  (env.internet, [Event.gateCheck env.internet])

/-- The per-line streaming loop of `run_subprocess_with_logging`: each line
is stripped and, when non-empty, logged as `[subprocess] <line>`. -/
def stream_lines (lines : List String) : List Event :=
  lines.filterMap (fun l =>
    let clean_line := l.trim
    if clean_line = "" then none
    else some (Event.logInfo ("[subprocess] " ++ clean_line)))

/-- `run_subprocess_with_logging(cmd)` (lines 302-336): launches the child,
streams its merged output, and returns its exit code. On
`KeyboardInterrupt` it logs a warning, calls `terminate()`, and raises a
plain `Exception("Interrupted by user")`; the `finally` block calls
`kill()` when the child has still not exited. The result is
`Except.error` exactly when an exception propagates out of the function. -/
def run_subprocess_with_logging (cmd : List String) (c : ChildOutcome) :
    List Event × Except String Int :=
  match c with
  | .completes lines code =>
      (Event.subprocStart cmd :: stream_lines lines, Except.ok code)
  | .interrupt linesBefore exitedAfterTerminate =>
      (Event.subprocStart cmd :: stream_lines linesBefore ++
        [Event.logWarning "Script interrupted by user. Terminating...",
         Event.childTerminate] ++
        (if exitedAfterTerminate then [] else [Event.childKill]),
       Except.error "Interrupted by user")

/-- `run_rclone(cmd_type, src, dst, base_flags, extra_flags)`
(lines 339-355): builds `["rclone", verb, src, dst]`, appends
`base_flags + extra_flags`, runs the subprocess, logs success at info and a
nonzero code at error level, and catches every `Exception` (logging it) —
nothing propagates out of this function. -/
def run_rclone (cmd_type src dst : String)
    (base_flags extra_flags : List String) (c : ChildOutcome) : List Event :=
  let cmd := ["rclone", if cmd_type = "bisync" then "bisync" else "sync",
              src, dst]
  let arrow := if cmd_type = "bisync" then "<-->" else "-->"
  let startEvent :=
    Event.logInfo ("Starting " ++ cmd_type ++ ": " ++ src ++ " " ++ arrow
      ++ " " ++ dst)
  let (subEvents, res) :=
    run_subprocess_with_logging (cmd ++ base_flags ++ extra_flags) c
  startEvent :: subEvents ++
    (match res with
     | Except.ok return_code =>
        if return_code = 0 then
          [Event.logInfo ("Finished " ++ cmd_type ++ ": " ++ src ++ " "
            ++ arrow ++ " " ++ dst)]
        else
          [Event.logError (cmd_type ++ " failed for " ++ src
            ++ " with exit code " ++ toString return_code)]
     | Except.error e =>
        [Event.logError ("An error occurred while running rclone: " ++ e)])

/-- One iteration of the inner task loop of `main` (lines 391-411): skip a
disabled task, otherwise expand the source path, expand the destination
unless it contains a colon, compute the cascading filters, and call
`run_rclone` with `filters + extras` as the extra flags. -/
def processTask (env : Env) (mode : String) (base_flags : List String)
    (task_name : String) (cfg : TaskCfg) : List Event :=
  if cfg.disabled then
    [Event.logInfo ("Skipping disabled task: " ++ task_name ++ " ("
      ++ mode ++ ")")]
  else
    let src_path := env.resolvePath cfg.src
    let dst_path :=
      if cfg.dst.data.contains ':' then cfg.dst else env.resolvePath cfg.dst
    let filters := get_filter_flags env mode task_name
    let extras := cfg.extra_flags
    Event.rcloneCall mode task_name ::
      run_rclone mode src_path dst_path base_flags (filters ++ extras)
        (env.childOutcome mode task_name)

/-- The configured tasks: `CONFIG["tasks"]` as an ordered association list
mode ↦ ordered association list task name ↦ task config (Python dicts
preserve insertion order). -/
def Tasks : Type := List (String × List (String × TaskCfg))

/-- The two nested `for` loops of `main` (lines 387-411): for each mode in
declared order select `FLAGS_BISYNC` when the mode key is `"bisync"` and
`FLAGS_BACKUP` otherwise, then process each task in declared order. -/
def iterateTasks (env : Env) (flags : FlagsData) (tasks : Tasks) :
    List Event :=
  (tasks.map (fun p =>
    let base_flags :=
      if p.1 = "bisync" then FLAGS_BISYNC flags else FLAGS_BACKUP flags
    (p.2.map (fun q => processTask env p.1 base_flags q.1 q.2)).flatten)).flatten

/-- The outcome of one run invocation of `main` (lines 378-414). -/
structure MainResult where
  exitCode : Int
  events : List Event
  lockPresentAtEnd : Bool
deriving Repr, DecidableEq

/-- The run path of `main()` (lines 378-414): attempt the lock and
`sys.exit(0)` on contention; then, inside `try`, check connectivity and
`sys.exit(1)` on failure; otherwise run the task loops; the `finally`
block always calls `release_lock()` once the `try` was entered. -/
def main_run (env : Env) (flags : FlagsData) (tasks : Tasks) : MainResult :=
  let (ok, acqEvents) := acquire_lock env
  if ok then
    let (net, gateEvents) := check_internet env
    if net then
      let iterEvents := iterateTasks env flags tasks
      let (lockAfter, relEvents) := release_lock true env.lockRemoveFails
      { exitCode := 0
        events := acqEvents ++ gateEvents ++ iterEvents ++ relEvents
          ++ [Event.exited 0]
        lockPresentAtEnd := lockAfter }
    else
      let (lockAfter, relEvents) := release_lock true env.lockRemoveFails
      { exitCode := 1
        events := acqEvents ++ gateEvents
          ++ [Event.logError "No internet connection. Skipping sync."]
          ++ relEvents ++ [Event.exited 1]
        lockPresentAtEnd := lockAfter }
  else
    { exitCode := 0
      events := acqEvents
        ++ [Event.logError "Another instance is already running.",
            Event.exited 0]
      lockPresentAtEnd := true }

/-- The argument vectors of the subprocesses launched during a trace, in
order. -/
def invocationArgvs (evs : List Event) : List (List String) :=
  evs.filterMap (fun e =>
    match e with
    | Event.subprocStart argv => some argv
    | _ => none)

/-- The (mode, task name) pairs for which the sync executor `run_rclone`
was entered during a trace, in order. -/
def taskCalls (evs : List Event) : List (String × String) :=
  evs.filterMap (fun e =>
    match e with
    | Event.rcloneCall m t => some (m, t)
    | _ => none)

/-! ## Trace helper lemmas -/

@[simp]
theorem invocationArgvs_nil : invocationArgvs [] = [] := rfl

@[simp]
theorem invocationArgvs_cons (e : Event) (evs : List Event) :
    invocationArgvs (e :: evs) =
      (match e with
       | Event.subprocStart argv => [argv]
       | _ => []) ++ invocationArgvs evs := by
  cases e <;> simp [invocationArgvs, List.filterMap_cons]

@[simp]
theorem invocationArgvs_append (a b : List Event) :
    invocationArgvs (a ++ b) =
      invocationArgvs a ++ invocationArgvs b := by
  simp [invocationArgvs, List.filterMap_append]

@[simp]
theorem taskCalls_nil : taskCalls [] = [] := rfl

@[simp]
theorem taskCalls_cons (e : Event) (evs : List Event) :
    taskCalls (e :: evs) =
      (match e with
       | Event.rcloneCall m t => [(m, t)]
       | _ => []) ++ taskCalls evs := by
  cases e <;> simp [taskCalls, List.filterMap_cons]

@[simp]
theorem taskCalls_append (a b : List Event) :
    taskCalls (a ++ b) = taskCalls a ++ taskCalls b := by
  simp [taskCalls, List.filterMap_append]

theorem stream_lines_shape (lines : List String) :
    ∀ e ∈ stream_lines lines, ∃ m, e = Event.logInfo m := by
  intro e he
  simp only [stream_lines, List.mem_filterMap] at he
  obtain ⟨l, -, hl⟩ := he
  by_cases h : l.trim = ""
  · simp [h] at hl
  · simp [h] at hl
    exact ⟨_, hl.symm⟩

@[simp]
theorem invocationArgvs_stream_lines (lines : List String) :
    invocationArgvs (stream_lines lines) = [] := by
  rw [invocationArgvs, List.filterMap_eq_nil_iff]
  intro e he
  obtain ⟨m, rfl⟩ := stream_lines_shape lines e he
  rfl

@[simp]
theorem taskCalls_stream_lines (lines : List String) :
    taskCalls (stream_lines lines) = [] := by
  rw [taskCalls, List.filterMap_eq_nil_iff]
  intro e he
  obtain ⟨m, rfl⟩ := stream_lines_shape lines e he
  rfl

/-- Shape of the `run_rclone` trace when the child runs to completion. -/
theorem run_rclone_completes (cmd_type src dst : String)
    (base_flags extra_flags : List String) (lines : List String) (code : Int) :
    run_rclone cmd_type src dst base_flags extra_flags
        (ChildOutcome.completes lines code) =
      Event.logInfo ("Starting " ++ cmd_type ++ ": " ++ src ++ " "
          ++ (if cmd_type = "bisync" then "<-->" else "-->") ++ " " ++ dst) ::
      Event.subprocStart (["rclone",
          if cmd_type = "bisync" then "bisync" else "sync", src, dst]
          ++ base_flags ++ extra_flags) ::
      stream_lines lines ++
      [if code = 0 then
        Event.logInfo ("Finished " ++ cmd_type ++ ": " ++ src ++ " "
          ++ (if cmd_type = "bisync" then "<-->" else "-->") ++ " " ++ dst)
       else
        Event.logError (cmd_type ++ " failed for " ++ src
          ++ " with exit code " ++ toString code)] := by
  by_cases h : code = 0 <;>
    simp [run_rclone, run_subprocess_with_logging, h]

/-- Shape of the `run_rclone` trace when a `KeyboardInterrupt` arrives while
the child is active: the warning, `terminate()`, the conditional `kill()`
escalation, and — because `run_rclone` catches every `Exception` — a logged
error instead of a propagated cancellation. -/
theorem run_rclone_interrupt (cmd_type src dst : String)
    (base_flags extra_flags : List String) (linesBefore : List String)
    (exitedAfterTerminate : Bool) :
    run_rclone cmd_type src dst base_flags extra_flags
        (ChildOutcome.interrupt linesBefore exitedAfterTerminate) =
      Event.logInfo ("Starting " ++ cmd_type ++ ": " ++ src ++ " "
          ++ (if cmd_type = "bisync" then "<-->" else "-->") ++ " " ++ dst) ::
      Event.subprocStart (["rclone",
          if cmd_type = "bisync" then "bisync" else "sync", src, dst]
          ++ base_flags ++ extra_flags) ::
      stream_lines linesBefore ++
      [Event.logWarning "Script interrupted by user. Terminating...",
       Event.childTerminate] ++
      (if exitedAfterTerminate then [] else [Event.childKill]) ++
      [Event.logError "An error occurred while running rclone: Interrupted by user"] := by
  cases exitedAfterTerminate <;>
    simp [run_rclone, run_subprocess_with_logging]

/-- The subprocess argument vectors contributed by one task iteration:
nothing for a disabled task, and for an enabled one exactly the vector
`["rclone", verb, resolved src, dst rule] ++ base_flags ++ filters ++
extra_flags`. -/
theorem invocationArgvs_processTask (env : Env) (mode : String)
    (base_flags : List String) (task_name : String) (cfg : TaskCfg) :
    invocationArgvs (processTask env mode base_flags task_name cfg) =
      if cfg.disabled then []
      else
        [["rclone", if mode = "bisync" then "bisync" else "sync",
          env.resolvePath cfg.src,
          if cfg.dst.data.contains ':' then cfg.dst else env.resolvePath cfg.dst]
          ++ base_flags ++ get_filter_flags env mode task_name
          ++ cfg.extra_flags] := by
  by_cases h : cfg.disabled
  · simp [processTask, h]
  · cases hc : env.childOutcome mode task_name with
    | completes lines code =>
        by_cases h0 : code = 0 <;>
          simp [processTask, h, hc, run_rclone_completes, h0]
    | interrupt lb ex =>
        cases ex <;> simp [processTask, h, hc, run_rclone_interrupt]

/-- The executor entries contributed by one task iteration. -/
theorem taskCalls_processTask (env : Env) (mode : String)
    (base_flags : List String) (task_name : String) (cfg : TaskCfg) :
    taskCalls (processTask env mode base_flags task_name cfg) =
      if cfg.disabled then [] else [(mode, task_name)] := by
  by_cases h : cfg.disabled
  · simp [processTask, h]
  · cases hc : env.childOutcome mode task_name with
    | completes lines code =>
        by_cases h0 : code = 0 <;>
          simp [processTask, h, hc, run_rclone_completes, h0]
    | interrupt lb ex =>
        cases ex <;> simp [processTask, h, hc, run_rclone_interrupt]

/-- The flag sequence the specification mandates for one task: the argument
vector prefix `binary, verb, source, destination`, then
`base ++ mode-specific ++ filters ++ extra_flags`. (This orchestrator
variant applies no environment-specific flag set, so that optional segment
is empty.) Written following the spec's wording, to be compared with the
trace of the embedded code. -/
def mergedArgv (env : Env) (flags : FlagsData) (mode task_name : String)
    (cfg : TaskCfg) : List String :=
  ["rclone", if mode = "bisync" then "bisync" else "sync",
   env.resolvePath cfg.src,
   if cfg.dst.data.contains ':' then cfg.dst else env.resolvePath cfg.dst]
  ++ flags.base
  ++ (if mode = "bisync" then flags.bisync else flags.backup)
  ++ get_filter_flags env mode task_name
  ++ cfg.extra_flags

/-- Every subprocess launched by the task loops carries the spec-mandated
merged argument vector, one per non-disabled task, in declared order. -/
theorem invocationArgvs_iterateTasks (env : Env) (flags : FlagsData)
    (tasks : Tasks) :
    invocationArgvs (iterateTasks env flags tasks) =
      (tasks.map (fun p => p.2.filterMap (fun q =>
        if q.2.disabled then none
        else some (mergedArgv env flags p.1 q.1 q.2)))).flatten := by
  induction tasks with
  | nil => rfl
  | cons p rest ih =>
      obtain ⟨mode, ts⟩ := p
      simp only [iterateTasks, List.map_cons, List.flatten_cons,
        invocationArgvs_append] at *
      rw [ih]
      congr 1
      induction ts with
      | nil => rfl
      | cons q qs ihq =>
          obtain ⟨task_name, cfg⟩ := q
          simp only [List.map_cons, List.flatten_cons, List.filterMap_cons,
            invocationArgvs_append, invocationArgvs_processTask]
          rw [ihq]
          by_cases hd : cfg.disabled
          · simp [hd]
          · by_cases hm : mode = "bisync" <;>
              simp [hd, hm, mergedArgv, FLAGS_BISYNC, FLAGS_BACKUP]

/-- The executor is entered exactly once per non-disabled task, in declared
order. -/
theorem taskCalls_iterateTasks (env : Env) (flags : FlagsData)
    (tasks : Tasks) :
    taskCalls (iterateTasks env flags tasks) =
      (tasks.map (fun p => p.2.filterMap (fun q =>
        if q.2.disabled then none else some (p.1, q.1)))).flatten := by
  induction tasks with
  | nil => rfl
  | cons p rest ih =>
      obtain ⟨mode, ts⟩ := p
      simp only [iterateTasks, List.map_cons, List.flatten_cons,
        taskCalls_append] at *
      rw [ih]
      congr 1
      induction ts with
      | nil => rfl
      | cons q qs ihq =>
          obtain ⟨task_name, cfg⟩ := q
          simp only [List.map_cons, List.flatten_cons, List.filterMap_cons,
            taskCalls_append, taskCalls_processTask]
          rw [ihq]
          by_cases hd : cfg.disabled <;> simp [hd]

/-- Full shape of a run that wins the lock: lock attempt, then the gate,
then (if the gate passed) the task loops, then the release, then the exit
with code 0 on the normal path and 1 on gate failure. -/
theorem main_run_acquired (env : Env) (flags : FlagsData) (tasks : Tasks)
    (h : env.lockExists = false) :
    main_run env flags tasks =
      { exitCode := if env.internet then 0 else 1
        events := Event.lockAcquireAttempt true ::
          Event.gateCheck env.internet ::
          (if env.internet then iterateTasks env flags tasks
           else [Event.logError "No internet connection. Skipping sync."]) ++
          (release_lock true env.lockRemoveFails).2 ++
          [Event.exited (if env.internet then 0 else 1)]
        lockPresentAtEnd := (release_lock true env.lockRemoveFails).1 } := by
  cases hn : env.internet <;>
    simp [main_run, acquire_lock, check_internet, h, hn]

/-- Full shape of a run that loses the lock: the failed attempt, its
warning, the contention error, exit 0 — and nothing else. -/
theorem main_run_contended (env : Env) (flags : FlagsData) (tasks : Tasks)
    (h : env.lockExists = true) :
    main_run env flags tasks =
      { exitCode := 0
        events :=
          [Event.lockAcquireAttempt false,
           Event.logWarning
             ("Lock directory exists. Another instance may be running. If not, delete "
               ++ env.lockDir),
           Event.logError "Another instance is already running.",
           Event.exited 0]
        lockPresentAtEnd := true } := by
  simp [main_run, acquire_lock, h]

/-! ## Concrete fixtures

A small concrete world used to instantiate the theorems: a script directory,
a lock path, a resolver that prefixes `/abs/`, and flag data with one flag
per key. -/

def flagsEx : FlagsData where
  base := ["--progress"]
  bisync := ["--check-access"]
  backup := ["--delete-excluded"]
  terminal := ["--verbose"]
  systemd := ["--quiet"]

def envRun : Env where
  scriptDir := "/opt/omniclone"
  lockDir := "/tmp/omniclone_lock_alice"
  fileExists := fun _ => false
  lockExists := false
  internet := true
  resolvePath := fun s => "/abs/" ++ s
  childOutcome := fun _ _ => ChildOutcome.completes [] 0
  lockRemoveFails := false

def cfgDocs : TaskCfg where
  src := "~/docs"
  dst := "remote:bucket/docs"
  extra_flags := ["--dry-run"]
  disabled := false

def envLocked : Env := { envRun with lockExists := true }

def envNoNet : Env := { envRun with internet := false }

def envC2 : Env := { envRun with lockExists := true, internet := false }

/-! ## Claims -/

/-- C1: for every task invocation, the merged flag sequence passed to the
sync subprocess equals base flags ++ mode-specific flags ++
(environment-specific flags — never applicable in this orchestrator
variant, hence absent) ++ cascading filter pairs ++ the task's
`extra_flags`, in exactly that order, after the argument-vector prefix of
binary, verb, source, destination. -/
theorem flag_merge_order_C1 (env : Env) (flags : FlagsData) (tasks : Tasks)
    (hLock : env.lockExists = false) (hNet : env.internet = true) :
    invocationArgvs (main_run env flags tasks).events =
      (tasks.map (fun p => p.2.filterMap (fun q =>
        if q.2.disabled then none
        else some (mergedArgv env flags p.1 q.1 q.2)))).flatten := by
  rw [main_run_acquired env flags tasks hLock]
  by_cases hr : env.lockRemoveFails <;>
    simp [hNet, hr, release_lock, invocationArgvs_iterateTasks]

/-- C1 witness: the end-to-end example of the spec — one backup task with a
remote destination, no filter files, one subprocess whose argument vector is
`sync <resolved src> remote:bucket/docs --progress --delete-excluded
--dry-run`. -/
theorem flag_merge_order_C1_witness :
    invocationArgvs (main_run envRun flagsEx
        [("backup", [("docs", cfgDocs)])]).events =
      [["rclone", "sync", "/abs/~/docs", "remote:bucket/docs",
        "--progress", "--delete-excluded", "--dry-run"]] := by
  rw [flag_merge_order_C1 envRun flagsEx [("backup", [("docs", cfgDocs)])]
    rfl rfl]
  decide

/-- C2 counterexample: a run where the lock directory already exists and the
connectivity probe would fail. The claim's order (GATE before LOCK, gate
failure fatal non-zero) demands a non-zero exit with the gate evaluated;
the code attempts the lock first, never evaluates the gate (no `gateCheck`
event occurs in the trace), and exits 0. -/
theorem gate_before_lock_C2_cex :
    envC2.internet = false ∧
    main_run envC2 flagsEx [("backup", [("docs", cfgDocs)])] =
      { exitCode := 0
        events :=
          [Event.lockAcquireAttempt false,
           Event.logWarning
             "Lock directory exists. Another instance may be running. If not, delete /tmp/omniclone_lock_alice",
           Event.logError "Another instance is already running.",
           Event.exited 0]
        lockPresentAtEnd := true } := by
  decide

/-- C2 (amended): the steps execute in the linear order LOCK then GATE then
ITERATE then CLEANUP; when the connectivity gate fails, the run terminates
with a fatal non-zero exit before any tasks are attempted, and the gate is
evaluated after the lock is acquired (on lock contention it is never
evaluated). -/
theorem run_order_C2 (env : Env) (flags : FlagsData) (tasks : Tasks)
    (hLock : env.lockExists = false) :
    (main_run env flags tasks).events =
      Event.lockAcquireAttempt true ::
      Event.gateCheck env.internet ::
      (if env.internet then iterateTasks env flags tasks
       else [Event.logError "No internet connection. Skipping sync."]) ++
      (release_lock true env.lockRemoveFails).2 ++
      [Event.exited (if env.internet then 0 else 1)] ∧
    (env.internet = false →
      (main_run env flags tasks).exitCode = 1 ∧
      invocationArgvs (main_run env flags tasks).events = []) := by
  rw [main_run_acquired env flags tasks hLock]
  refine ⟨rfl, fun hn => ⟨by simp [hn], ?_⟩⟩
  by_cases hr : env.lockRemoveFails <;> simp [hn, hr, release_lock]

/-- C2 (amended) witness: with the lock free and the gate failing, the run
exits 1 with zero subprocess launches. -/
theorem run_order_C2_witness :
    (main_run envNoNet flagsEx []).exitCode = 1 ∧
    invocationArgvs (main_run envNoNet flagsEx []).events = [] :=
  (run_order_C2 envNoNet flagsEx [] rfl).2 rfl

def cfgAlpha : TaskCfg where
  src := "~/alpha"
  dst := "remote:a"
  extra_flags := []
  disabled := false

def cfgBeta : TaskCfg where
  src := "~/beta"
  dst := "remote:b"
  extra_flags := []
  disabled := false

def envC3 : Env :=
  { envRun with
    childOutcome := fun _ t =>
      if t == "alpha" then ChildOutcome.interrupt [] false
      else ChildOutcome.completes [] 0 }

def tasksC3 : Tasks := [("backup", [("alpha", cfgAlpha), ("beta", cfgBeta)])]

/-- C3: an operator interrupt during the first task's subprocess. The child
is terminated and then killed (it had not exited), and the lock is still
released — but the `Exception("Interrupted by user")` raised by
`run_subprocess_with_logging` is caught by `run_rclone`'s blanket
`except Exception` handler and merely logged, so the remaining task `beta`
is still invoked and the run finishes normally with exit code 0: the
remaining loop is NOT aborted and no cancellation condition propagates,
contradicting the claim and the spec's CancellationError row. -/
theorem interrupt_swallowed_C3 :
    Event.childTerminate ∈ (main_run envC3 flagsEx tasksC3).events ∧
    Event.childKill ∈ (main_run envC3 flagsEx tasksC3).events ∧
    Event.lockReleaseCall ∈ (main_run envC3 flagsEx tasksC3).events ∧
    Event.logError "An error occurred while running rclone: Interrupted by user"
      ∈ (main_run envC3 flagsEx tasksC3).events ∧
    Event.rcloneCall "backup" "beta" ∈ (main_run envC3 flagsEx tasksC3).events ∧
    Event.subprocStart
        ["rclone", "sync", "/abs/~/beta", "remote:b",
         "--progress", "--delete-excluded"]
      ∈ (main_run envC3 flagsEx tasksC3).events ∧
    (main_run envC3 flagsEx tasksC3).exitCode = 0 := by
  decide

/-- C4: when the lock directory already exists, `acquire_lock` returns
false, the contention is logged as a warning naming the lock path, the
process exits with code 0, and no executor call and no subprocess launch
happens. -/
theorem lock_contention_C4 (env : Env) (flags : FlagsData) (tasks : Tasks)
    (h : env.lockExists = true) :
    (acquire_lock env).1 = false ∧
    (main_run env flags tasks).exitCode = 0 ∧
    Event.logWarning
        ("Lock directory exists. Another instance may be running. If not, delete "
          ++ env.lockDir) ∈ (main_run env flags tasks).events ∧
    taskCalls (main_run env flags tasks).events = [] ∧
    invocationArgvs (main_run env flags tasks).events = [] := by
  rw [main_run_contended env flags tasks h]
  simp [acquire_lock, h]

/-- C4 witness: a concrete contended run. -/
theorem lock_contention_C4_witness :
    (acquire_lock envLocked).1 = false ∧
    (main_run envLocked flagsEx [("backup", [("docs", cfgDocs)])]).exitCode
      = 0 ∧
    Event.logWarning
        ("Lock directory exists. Another instance may be running. If not, delete "
          ++ envLocked.lockDir)
      ∈ (main_run envLocked flagsEx [("backup", [("docs", cfgDocs)])]).events ∧
    taskCalls
      (main_run envLocked flagsEx [("backup", [("docs", cfgDocs)])]).events
      = [] ∧
    invocationArgvs
      (main_run envLocked flagsEx [("backup", [("docs", cfgDocs)])]).events
      = [] :=
  lock_contention_C4 envLocked flagsEx [("backup", [("docs", cfgDocs)])] rfl

/-- C5: for every mode and task name, `get_filter_flags` returns both
`--filter-from` pairs, global first, when both conventionally named files
exist; the empty sequence when neither exists; and exactly the one pair
naming the existing file when only one exists. -/
theorem filter_cascade_C5 (env : Env) (mode task : String) :
    (env.fileExists (global_filter env mode) = true →
      env.fileExists (task_filter env mode task) = true →
      get_filter_flags env mode task =
        ["--filter-from", global_filter env mode,
         "--filter-from", task_filter env mode task]) ∧
    (env.fileExists (global_filter env mode) = false →
      env.fileExists (task_filter env mode task) = false →
      get_filter_flags env mode task = []) ∧
    (env.fileExists (global_filter env mode) = true →
      env.fileExists (task_filter env mode task) = false →
      get_filter_flags env mode task =
        ["--filter-from", global_filter env mode]) ∧
    (env.fileExists (global_filter env mode) = false →
      env.fileExists (task_filter env mode task) = true →
      get_filter_flags env mode task =
        ["--filter-from", task_filter env mode task]) := by
  refine ⟨fun h1 h2 => ?_, fun h1 h2 => ?_, fun h1 h2 => ?_, fun h1 h2 => ?_⟩
    <;> simp [get_filter_flags, h1, h2]

def envBoth : Env :=
  { envRun with
    fileExists := fun s =>
      (s == "/opt/omniclone/filters.bisync.txt")
        || (s == "/opt/omniclone/filters.bisync.docs.txt") }

/-- C5 witness: with both `filters.bisync.txt` and `filters.bisync.docs.txt`
present, `get_filter_flags "bisync" "docs"` returns the global pair first
and the specific pair second. -/
theorem filter_cascade_C5_witness :
    envBoth.fileExists (global_filter envBoth "bisync") = true ∧
    envBoth.fileExists (task_filter envBoth "bisync" "docs") = true ∧
    get_filter_flags envBoth "bisync" "docs" =
      ["--filter-from", global_filter envBoth "bisync",
       "--filter-from", task_filter envBoth "bisync" "docs"] :=
  ⟨by decide, by decide,
   (filter_cascade_C5 envBoth "bisync" "docs").1 (by decide) (by decide)⟩

/-- C6: on every exit path of a run that acquired the lock — both gate
outcomes, any task results including failures and interrupts — the release
executes; it removes the lock directory when removal succeeds, and a
removal error is swallowed as a logged warning that leaves the run's exit
code unchanged. -/
theorem lock_release_C6 (env : Env) (flags : FlagsData) (tasks : Tasks)
    (h : env.lockExists = false) :
    Event.lockReleaseCall ∈ (main_run env flags tasks).events ∧
    (env.lockRemoveFails = false →
      (main_run env flags tasks).lockPresentAtEnd = false) ∧
    (env.lockRemoveFails = true →
      (main_run env flags tasks).lockPresentAtEnd = true ∧
      Event.logWarning "Could not release lock: rmdir failed"
        ∈ (main_run env flags tasks).events) ∧
    (main_run { env with lockRemoveFails := true } flags tasks).exitCode =
      (main_run { env with lockRemoveFails := false } flags tasks).exitCode := by
  rw [main_run_acquired env flags tasks h]
  refine ⟨?_, fun hr => by simp [release_lock, hr], fun hr => ?_, ?_⟩
  · by_cases hr : env.lockRemoveFails <;> simp [release_lock, hr]
  · refine ⟨by simp [release_lock, hr], by simp [release_lock, hr]⟩
  · rw [main_run_acquired { env with lockRemoveFails := true } flags tasks
        (by simpa using h),
      main_run_acquired { env with lockRemoveFails := false } flags tasks
        (by simpa using h)]

/-- C6 witness: a run whose lock removal fails still exits 0 with the
swallowed warning in the trace, and the lock directory is left behind. -/
theorem lock_release_C6_witness :
    Event.lockReleaseCall
      ∈ (main_run { envRun with lockRemoveFails := true } flagsEx []).events ∧
    ({ envRun with lockRemoveFails := true } : Env).lockRemoveFails = true ∧
    (main_run { envRun with lockRemoveFails := true } flagsEx
        []).lockPresentAtEnd = true ∧
    Event.logWarning "Could not release lock: rmdir failed"
      ∈ (main_run { envRun with lockRemoveFails := true } flagsEx []).events :=
  let h := lock_release_C6 { envRun with lockRemoveFails := true } flagsEx []
    rfl
  ⟨h.1, rfl, (h.2.2.1 rfl).1, (h.2.2.1 rfl).2⟩

/-- C7: for every non-disabled task, the subprocess source argument is
always the home-expanded, canonicalized source path, and the destination
argument is expanded identically exactly when it contains no colon — a
destination containing a colon is passed through verbatim. -/
theorem remote_dst_passthrough_C7 (env : Env) (mode : String)
    (base_flags : List String) (task_name : String) (cfg : TaskCfg)
    (h : cfg.disabled = false) :
    ∃ tail,
      invocationArgvs (processTask env mode base_flags task_name cfg) =
        [["rclone", if mode = "bisync" then "bisync" else "sync",
          env.resolvePath cfg.src,
          if cfg.dst.data.contains ':' then cfg.dst
          else env.resolvePath cfg.dst] ++ tail] := by
  refine ⟨base_flags ++ get_filter_flags env mode task_name
    ++ cfg.extra_flags, ?_⟩
  simp [invocationArgvs_processTask, h]

/-- C7 witness: a colon-bearing destination is passed through verbatim
while the source is resolved. -/
theorem remote_dst_passthrough_C7_witness :
    ∃ tail,
      invocationArgvs (processTask envRun "backup" ["--progress"] "docs"
          cfgDocs) =
        [["rclone", if "backup" = "bisync" then "bisync" else "sync",
          envRun.resolvePath cfgDocs.src,
          if cfgDocs.dst.data.contains ':' then cfgDocs.dst
          else envRun.resolvePath cfgDocs.dst] ++ tail] :=
  remote_dst_passthrough_C7 envRun "backup" ["--progress"] "docs" cfgDocs rfl

/-- C8: with tasks A then B in one run, A's subprocess exiting nonzero, A's
failure is logged at error level, B is still invoked, B's success is logged
independently, and the run's exit code is still 0. -/
theorem partial_failure_isolation_C8 (env : Env) (flags : FlagsData)
    (mode nameA nameB : String) (cfgA cfgB : TaskCfg)
    (linesA linesB : List String) (codeA : Int)
    (hLock : env.lockExists = false) (hNet : env.internet = true)
    (hA : cfgA.disabled = false) (hB : cfgB.disabled = false)
    (hcA : env.childOutcome mode nameA = ChildOutcome.completes linesA codeA)
    (hcodeA : codeA ≠ 0)
    (hcB : env.childOutcome mode nameB = ChildOutcome.completes linesB 0) :
    Event.logError (mode ++ " failed for " ++ env.resolvePath cfgA.src
        ++ " with exit code " ++ toString codeA)
      ∈ (main_run env flags
          [(mode, [(nameA, cfgA), (nameB, cfgB)])]).events ∧
    Event.rcloneCall mode nameB
      ∈ (main_run env flags
          [(mode, [(nameA, cfgA), (nameB, cfgB)])]).events ∧
    Event.logInfo ("Finished " ++ mode ++ ": " ++ env.resolvePath cfgB.src
        ++ " " ++ (if mode = "bisync" then "<-->" else "-->") ++ " "
        ++ (if cfgB.dst.data.contains ':' then cfgB.dst
            else env.resolvePath cfgB.dst))
      ∈ (main_run env flags
          [(mode, [(nameA, cfgA), (nameB, cfgB)])]).events ∧
    (main_run env flags
        [(mode, [(nameA, cfgA), (nameB, cfgB)])]).exitCode = 0 := by
  rw [main_run_acquired env flags [(mode, [(nameA, cfgA), (nameB, cfgB)])]
    hLock]
  refine ⟨?_, ?_, ?_, by simp [hNet]⟩ <;>
    simp [hNet, iterateTasks, processTask, hA, hB, hcA, hcB,
      run_rclone_completes, hcodeA]

def envC8 : Env :=
  { envRun with
    childOutcome := fun _ t =>
      if t == "fail1" then ChildOutcome.completes [] 1
      else ChildOutcome.completes [] 0 }

/-- C8 witness: task `fail1` exits 1, task `ok2` exits 0 in the same run. -/
theorem partial_failure_isolation_C8_witness :
    Event.logError ("backup" ++ " failed for "
        ++ envC8.resolvePath cfgAlpha.src ++ " with exit code "
        ++ toString (1 : Int))
      ∈ (main_run envC8 flagsEx
          [("backup", [("fail1", cfgAlpha), ("ok2", cfgBeta)])]).events ∧
    Event.rcloneCall "backup" "ok2"
      ∈ (main_run envC8 flagsEx
          [("backup", [("fail1", cfgAlpha), ("ok2", cfgBeta)])]).events ∧
    Event.logInfo ("Finished " ++ "backup" ++ ": "
        ++ envC8.resolvePath cfgBeta.src ++ " "
        ++ (if "backup" = "bisync" then "<-->" else "-->") ++ " "
        ++ (if cfgBeta.dst.data.contains ':' then cfgBeta.dst
            else envC8.resolvePath cfgBeta.dst))
      ∈ (main_run envC8 flagsEx
          [("backup", [("fail1", cfgAlpha), ("ok2", cfgBeta)])]).events ∧
    (main_run envC8 flagsEx
        [("backup", [("fail1", cfgAlpha), ("ok2", cfgBeta)])]).exitCode = 0 :=
  partial_failure_isolation_C8 envC8 flagsEx "backup" "fail1" "ok2"
    cfgAlpha cfgBeta [] [] 1 rfl rfl rfl rfl (by decide) (by decide)
    (by decide)

/-- C9: a task with `disabled = true` triggers zero executor calls,
regardless of its other fields, its skip is logged, and the loop proceeds
to the next task, which is still executed. -/
theorem disabled_task_exclusion_C9 (env : Env) (flags : FlagsData)
    (mode nameD nameE : String) (cfgD cfgE : TaskCfg)
    (hLock : env.lockExists = false) (hNet : env.internet = true)
    (hD : cfgD.disabled = true) (hE : cfgE.disabled = false) :
    taskCalls (main_run env flags
        [(mode, [(nameD, cfgD), (nameE, cfgE)])]).events = [(mode, nameE)] ∧
    Event.logInfo ("Skipping disabled task: " ++ nameD ++ " (" ++ mode
        ++ ")")
      ∈ (main_run env flags
          [(mode, [(nameD, cfgD), (nameE, cfgE)])]).events := by
  rw [main_run_acquired env flags [(mode, [(nameD, cfgD), (nameE, cfgE)])]
    hLock]
  constructor
  · by_cases hr : env.lockRemoveFails <;>
      simp [hNet, hr, release_lock, iterateTasks, taskCalls_processTask,
        hD, hE]
  · simp [hNet, iterateTasks, processTask, hD]

def cfgDead : TaskCfg where
  src := "~/dead"
  dst := "remote:dead"
  extra_flags := ["--whatever"]
  disabled := true

/-- C9 witness: a disabled task followed by an enabled one. -/
theorem disabled_task_exclusion_C9_witness :
    taskCalls (main_run envRun flagsEx
        [("backup", [("dead", cfgDead), ("live", cfgBeta)])]).events
      = [("backup", "live")] ∧
    Event.logInfo ("Skipping disabled task: " ++ "dead" ++ " (" ++ "backup"
        ++ ")")
      ∈ (main_run envRun flagsEx
          [("backup", [("dead", cfgDead), ("live", cfgBeta)])]).events :=
  disabled_task_exclusion_C9 envRun flagsEx "backup" "dead" "live" cfgDead
    cfgBeta rfl rfl rfl rfl

/-- C10: a task whose mode key is any string other than `"bisync"` is
silently treated as a backup task — the verb is `sync`, the backup flag set
`base ++ backup` is applied, the run completes with exit code 0, and no
error or warning is ever emitted for the unrecognized mode. -/
theorem unknown_mode_backup_C10 (env : Env) (flags : FlagsData)
    (mode task_name : String) (cfg : TaskCfg)
    (hMode : mode ≠ "bisync")
    (hLock : env.lockExists = false) (hNet : env.internet = true)
    (hRm : env.lockRemoveFails = false) (hd : cfg.disabled = false)
    (hc : env.childOutcome mode task_name = ChildOutcome.completes [] 0) :
    invocationArgvs (main_run env flags
        [(mode, [(task_name, cfg)])]).events =
      [["rclone", "sync", env.resolvePath cfg.src,
        if cfg.dst.data.contains ':' then cfg.dst
        else env.resolvePath cfg.dst]
        ++ flags.base ++ flags.backup
        ++ get_filter_flags env mode task_name ++ cfg.extra_flags] ∧
    (main_run env flags [(mode, [(task_name, cfg)])]).exitCode = 0 ∧
    (main_run env flags [(mode, [(task_name, cfg)])]).events.all (fun e =>
      match e with
      | Event.logError _ => false
      | Event.logWarning _ => false
      | _ => true) = true := by
  rw [main_run_acquired env flags [(mode, [(task_name, cfg)])] hLock]
  refine ⟨?_, by simp [hNet], ?_⟩ <;>
    simp [hNet, hRm, release_lock, iterateTasks, processTask, hd, hc,
      run_rclone_completes, hMode, FLAGS_BACKUP, stream_lines]

/-- C10 witness: a run with the undocumented mode key `snapshot`. -/
theorem unknown_mode_backup_C10_witness :
    invocationArgvs (main_run envRun flagsEx
        [("snapshot", [("docs", cfgDocs)])]).events =
      [["rclone", "sync", envRun.resolvePath cfgDocs.src,
        if cfgDocs.dst.data.contains ':' then cfgDocs.dst
        else envRun.resolvePath cfgDocs.dst]
        ++ flagsEx.base ++ flagsEx.backup
        ++ get_filter_flags envRun "snapshot" "docs"
        ++ cfgDocs.extra_flags] ∧
    (main_run envRun flagsEx [("snapshot", [("docs", cfgDocs)])]).exitCode
      = 0 ∧
    (main_run envRun flagsEx
        [("snapshot", [("docs", cfgDocs)])]).events.all (fun e =>
      match e with
      | Event.logError _ => false
      | Event.logWarning _ => false
      | _ => true) = true :=
  unknown_mode_backup_C10 envRun flagsEx "snapshot" "docs" cfgDocs
    (by decide) rfl rfl rfl rfl rfl

end Omniclone
